import Mathlib

/-
Verification development for the ResumeMate retrieval-and-caching core.

Shallow embedding of the Python sources:
  - src/backend/models.py        (data model: enums, SearchResult, responses)
  - src/backend/tools/rag.py     (RAGConfig, RAGTools: validation, caches, search)
  - src/backend/processor.py     (ResumeMateProcessor: request cache, sources, turn)
  - src/backend/agents/analysis.py (AnalysisAgent post-processing of LLM output)
  - src/backend/agents/evaluate.py (EvaluateAgent status mapping and fallbacks)

Modelling conventions:
  - Python float -> Rat (all constants in scope are exact decimals).
  - Python int   -> Int where negatives are possible (top_k), Nat for sizes/counters.
  - Python dict  -> association list (List (String x _)); dict assignment keeps the
    position of an existing key and appends new keys, which insertAssoc mirrors.
  - md5/hash cache keys -> the hashed text itself (hashing is modelled as injective
    keying; collisions are out of scope).
  - Blocking upstream collaborators (embedding provider, vector store, language
    model) -> explicit oracle parameters / outcome arguments.
-/

set_option linter.unusedVariables false

namespace ResumeMate

/-! ## Data model (models.py) -/

/-- QuestionType enum from models.py: fact, skill, experience, contact, other. -/
inductive QuestionType where
  | fact
  | skill
  | experience
  | contact
  | other
deriving DecidableEq, Repr

/-- AgentDecision enum from models.py. Its only members are RETRIEVE ("retrieve"),
OUT_OF_SCOPE ("oos"), ASK_CLARIFY ("clarify") and NEEDS_EDIT ("needs_edit");
the enum has no member for an escalate-to-human or ok status. -/
inductive AgentDecision where
  | retrieve
  | oos
  | clarify
  | needs_edit
deriving DecidableEq, Repr

/-- String value of each AgentDecision member, as declared in models.py. -/
def AgentDecision.value : AgentDecision → String
  | .retrieve => "retrieve"
  | .oos => "oos"
  | .clarify => "clarify"
  | .needs_edit => "needs_edit"

/-- SearchResult from models.py. The metadata dict is modelled as a string-valued
association list (only the "title"/"loc"/"source_filename" keys are ever read
by the code in scope). -/
structure SearchResult where
  doc_id : String
  score : ℚ
  excerpt : String
  metadata : List (String × String)
deriving DecidableEq, Repr

/-! ## Association-list primitives (model of Python dict) -/

/-- Lookup of a key in an association list (Python `d[k]` / `k in d`). -/
def lookupA {α : Type} (k : String) : List (String × α) → Option α
  | [] => none
  | (k2, v) :: rest => if k2 = k then some v else lookupA k rest

/-- Python dict assignment `d[k] = v`: replaces in place if the key exists,
appends otherwise. -/
def insertAssoc {α : Type} (k : String) (v : α) : List (String × α) → List (String × α)
  | [] => [(k, v)]
  | (k2, v2) :: rest =>
    if k2 = k then (k, v) :: rest else (k2, v2) :: insertAssoc k v rest

/-- Python `del d[k]`: removes the (first) binding of the key. -/
def removeAssoc {α : Type} (k : String) : List (String × α) → List (String × α)
  | [] => []
  | (k2, v2) :: rest => if k2 = k then rest else (k2, v2) :: removeAssoc k rest

/-! ## String primitives (Python str.strip / str.lower)

Defined by structural recursion over the character list so that concrete
witnesses evaluate inside the kernel. ASCII-faithful: Python strips a few more
exotic unicode whitespace characters and lowercases non-ASCII letters, which no
code path in scope depends on. -/

/-- Drop leading whitespace characters. -/
def dropWhileWs : List Char → List Char
  | [] => []
  | c :: rest => if c.isWhitespace then dropWhileWs rest else c :: rest

/-- Python `str.strip()`: remove leading and trailing whitespace. -/
def pyStrip (s : String) : String :=
  String.mk ((dropWhileWs ((dropWhileWs s.data).reverse)).reverse)

/-- ASCII lowercasing of one character. -/
def lowerChar (c : Char) : Char :=
  if 65 ≤ c.toNat ∧ c.toNat ≤ 90 then Char.ofNat (c.toNat + 32) else c

/-- Python `str.lower()` (ASCII fragment). -/
def pyLower (s : String) : String :=
  String.mk (s.data.map lowerChar)

/-! ## RAG configuration and validation (rag.py) -/

/-- RAGConfig from rag.py with its dataclass defaults (performance-tuning fields
that no claim touches are omitted). -/
structure RAGConfig where
  cache_size : Nat := 100
  max_top_k : Int := 15
  enable_query_cache : Bool := true
  enable_embedding_cache : Bool := true
  cache_ttl_seconds : ℚ := 3600
  similarity_threshold : ℚ := 1/10
  query_preprocessing : Bool := true
  result_reranking : Bool := true
deriving Repr

/-- Default configuration (RAGConfig()). -/
def defaultRAGConfig : RAGConfig := {}

/-- RAGTools._validate_input: raises ValueError when the query is empty after
stripping, or when top_k is non-positive or exceeds max_top_k. The isinstance
checks are vacuous in the typed embedding. -/
def validateInput (cfg : RAGConfig) (query : String) (top_k : Int) : Except String Unit :=
  if pyStrip query = "" then
    Except.error "Query must be a non-empty string"
  else if top_k ≤ 0 ∨ cfg.max_top_k < top_k then
    Except.error "top_k must be a positive integer <= max_top_k"
  else
    Except.ok ()

/-- Query normalization used by RAGTools._get_cache_key: strip then case-fold
(`query.strip().lower()`). -/
def normalizeQuery (query : String) : String :=
  pyLower (pyStrip query)

/-- RAGTools._get_cache_key: md5 of "normalized_query:top_k"; the md5 digest is
modelled as the hashed text itself. -/
def getCacheKey (query : String) (top_k : Int) : String :=
  normalizeQuery query ++ ":" ++ toString top_k

/-- RAGTools._is_cache_valid: `(now - timestamp) < cache_ttl_seconds`. -/
def isCacheValid (cfg : RAGConfig) (now timestamp : ℚ) : Bool :=
  decide (now - timestamp < cfg.cache_ttl_seconds)

/-! ## Distance-to-similarity conversion (rag.py _process_search_results) -/

/-- Line 390 of rag.py: `similarity = max(0.0, min(1.0, (2.0 - distance) / 2.0))`. -/
def similarityOfDistance (distance : ℚ) : ℚ :=
  max 0 (min 1 ((2 - distance) / 2))

/-- Modelled from the spec: the similarity conversion written in the spec's own
words, `clamp((2 - distance) / 2, 0, 1)`, for comparison with the code's
similarityOfDistance. -/
def specClampSimilarity (distance : ℚ) : ℚ :=
  max 0 (min 1 ((2 - distance) / 2))

/-! ## Query preprocessing (rag.py _preprocess_query) -/

/-- Punctuation stripped by `_preprocess_query` (the characters of the regex
class in line 342 are replaced by spaces). -/
def stripPunct (c : Char) : Char :=
  if c = '？' ∨ c = '！' ∨ c = '。' ∨ c = '，' ∨ c = '；' ∨ c = '：' then ' ' else c

/-- Collapse runs of whitespace into a single space (`re.sub(r"\s+", " ", ...)`).
The Bool flag records whether the previous character was whitespace. -/
def collapseWsAux : Bool → List Char → List Char
  | _, [] => []
  | prevWs, c :: rest =>
    if c.isWhitespace then
      if prevWs then collapseWsAux true rest
      else ' ' :: collapseWsAux true rest
    else c :: collapseWsAux false rest

/-- RAGTools._preprocess_query: strip, replace the punctuation class by spaces,
collapse whitespace runs, strip again. The `_preprocessed_queries` memo dict is
a pure memoization of this function and is not modelled. -/
def preprocessQuery (query : String) : String :=
  pyStrip (String.mk (collapseWsAux false ((pyStrip query).data.map stripPunct)))

/-! ## RAG cache state and search pipeline (rag.py) -/

/-- One entry of the query-result cache `_query_cache`: `(results, timestamp)`. -/
structure QueryCacheEntry where
  results : List SearchResult
  timestamp : ℚ
deriving DecidableEq, Repr

/-- One entry of the embedding cache `_embedding_cache`: `(vector, timestamp)`. -/
structure EmbCacheEntry where
  vec : List ℚ
  timestamp : ℚ
deriving DecidableEq, Repr

/-- Mutable state of a RAGTools instance: the two TTL caches plus the
performance counters that the search path reads or writes. upstreamCalls
counts executions of the embed-and-vector-store compute path (a cache miss). -/
structure RAGState where
  queryCache : List (String × QueryCacheEntry)
  embeddingCache : List (String × EmbCacheEntry)
  upstreamCalls : Nat
  totalQueries : Nat
  cacheHits : Nat
deriving DecidableEq, Repr

/-- Initial state of a freshly constructed RAGTools. -/
def initialRAGState : RAGState :=
  { queryCache := [], embeddingCache := [], upstreamCalls := 0,
    totalQueries := 0, cacheHits := 0 }

/-- RAGTools._cleanup_expired_cache on the query cache: delete every entry whose
TTL has expired (keep exactly the valid ones). -/
def cleanupQueryCache (cfg : RAGConfig) (now : ℚ) :
    List (String × QueryCacheEntry) → List (String × QueryCacheEntry) :=
  List.filter (fun p => isCacheValid cfg now p.2.timestamp)

/-- RAGTools._cleanup_expired_cache on the embedding cache. -/
def cleanupEmbeddingCache (cfg : RAGConfig) (now : ℚ) :
    List (String × EmbCacheEntry) → List (String × EmbCacheEntry) :=
  List.filter (fun p => isCacheValid cfg now p.2.timestamp)

/-- The query-cache lookup performed at lines 271-279 of rag.py: a hit requires
the cache to be enabled, the key to be present, and the entry to be TTL-valid. -/
def queryCacheLookup (cfg : RAGConfig) (now : ℚ)
    (cache : List (String × QueryCacheEntry)) (key : String) :
    Option (List SearchResult) :=
  if cfg.enable_query_cache then
    match lookupA key cache with
    | some e => if isCacheValid cfg now e.timestamp then some e.results else none
    | none => none
  else none

/-- Cache-miss compute path of rag_search (lines 281-327): preprocess the query,
run the embed-and-retrieve pipeline (abstracted as the retrieve oracle, covering
lines 288-309), then cache the results only while the map is below cache_size.
No eviction happens here: a full query cache silently skips the insertion. -/
def computeAndCache (cfg : RAGConfig) (retrieve : String → Int → List SearchResult)
    (now : ℚ) (st : RAGState) (key query : String) (top_k : Int) :
    List SearchResult × RAGState :=
  let processed := if cfg.query_preprocessing then preprocessQuery query else query
  let results := retrieve processed top_k
  let st1 : RAGState := { st with upstreamCalls := st.upstreamCalls + 1 }
  let st2 : RAGState :=
    if cfg.enable_query_cache ∧ st1.queryCache.length < cfg.cache_size then
      { st1 with queryCache := insertAssoc key ⟨results, now⟩ st1.queryCache }
    else st1
  (results, st2)

/-- RAGTools.rag_search. The body's only exception in scope is the ValueError of
_validate_input; the catch-all at line 329 converts it into an empty result
list, leaving the caches untouched. Every 50th query the expired entries of
both caches are swept before the cache lookup. -/
def rag_search (cfg : RAGConfig) (retrieve : String → Int → List SearchResult)
    (now : ℚ) (st : RAGState) (query : String) (top_k : Int) :
    List SearchResult × RAGState :=
  let st1 : RAGState := { st with totalQueries := st.totalQueries + 1 }
  match validateInput cfg query top_k with
  | Except.error _ => ([], st1)
  | Except.ok _ =>
    let st2 : RAGState :=
      if st1.totalQueries % 50 = 0 then
        { st1 with queryCache := cleanupQueryCache cfg now st1.queryCache,
                   embeddingCache := cleanupEmbeddingCache cfg now st1.embeddingCache }
      else st1
    let key := getCacheKey query top_k
    match queryCacheLookup cfg now st2.queryCache key with
    | some results => (results, { st2 with cacheHits := st2.cacheHits + 1 })
    | none => computeAndCache cfg retrieve now st2 key query top_k

/-- RAGTools._get_embedding_with_cache: embed with a TTL cache keyed by the md5
of the text (modelled as the text itself). The embed oracle abstracts
_embed_texts_with_retry; None models an embedding failure. -/
def getEmbeddingWithCache (cfg : RAGConfig) (embed : String → Option (List ℚ))
    (now : ℚ) (cache : List (String × EmbCacheEntry)) (text : String) :
    Option (List ℚ) × List (String × EmbCacheEntry) :=
  if cfg.enable_embedding_cache then
    match lookupA text cache with
    | some e =>
      if isCacheValid cfg now e.timestamp then (some e.vec, cache)
      else
        match embed text with
        | some v =>
          (some v,
           if cache.length < cfg.cache_size * 2 then insertAssoc text ⟨v, now⟩ cache
           else cache)
        | none => (none, cache)
    | none =>
      match embed text with
      | some v =>
        (some v,
         if cache.length < cfg.cache_size * 2 then insertAssoc text ⟨v, now⟩ cache
         else cache)
      | none => (none, cache)
  else (embed text, cache)

/-- Whether an Except value is an error (used to state validation failures
without binders). -/
def isError : Except String Unit → Bool
  | Except.error _ => true
  | Except.ok _ => false

/-- A concrete search result used by witnesses and counterexamples. -/
def sampleResult : SearchResult :=
  { doc_id := "doc-1", score := 4/5, excerpt := "excerpt", metadata := [] }

/-! ## Processor request cache (processor.py) -/

/-- SystemResponse from models.py; the metadata dict is modelled as a
string-valued association list. -/
structure SystemResponseM where
  answer : String
  sources : List String
  confidence : ℚ
  action : Option String
  metadata : List (String × String)
deriving DecidableEq, Repr

/-- One entry of the processor `_request_cache`: `(response, timestamp)`. -/
structure RespCacheEntry where
  response : SystemResponseM
  timestamp : ℚ
deriving DecidableEq, Repr

/-- Key of the per-question response cache: `str(hash(text.strip().lower()))`;
the Python hash is modelled as injective keying by the normalized text. -/
def requestKey (questionText : String) : String :=
  pyLower (pyStrip questionText)

/-- The processor cache TTL (`self.cache_ttl = 300`). -/
def processorCacheTtl : ℚ := 300

/-- ResumeMateProcessor._check_request_cache: return the cached response (with
the cached/cache_age metadata marks) while it is TTL-fresh; delete it lazily
once it has expired. -/
def checkRequestCache (cacheTtl now : ℚ) (cache : List (String × RespCacheEntry))
    (questionText : String) :
    Option SystemResponseM × List (String × RespCacheEntry) :=
  let key := requestKey questionText
  match lookupA key cache with
  | some e =>
    if now - e.timestamp < cacheTtl then
      (some { e.response with
              metadata := insertAssoc "cache_age" (toString (now - e.timestamp))
                            (insertAssoc "cached" "True" e.response.metadata) },
       cache)
    else (none, removeAssoc key cache)
  | none => (none, cache)

/-- Fold of `min(keys, key=timestamp)`: Python min keeps the first occurrence
of the minimal timestamp, hence the strict comparison when updating. -/
def oldestEntryGo (best : String × RespCacheEntry) :
    List (String × RespCacheEntry) → String × RespCacheEntry
  | [] => best
  | p :: rest =>
    if p.2.timestamp < best.2.timestamp then oldestEntryGo p rest
    else oldestEntryGo best rest

/-- Key of the oldest entry of the request cache (none when empty). -/
def oldestKey : List (String × RespCacheEntry) → Option String
  | [] => none
  | p :: rest => some (oldestEntryGo p rest).1

/-- ResumeMateProcessor._cache_response: once the cache holds 100 or more
entries, the entry with the minimal timestamp is deleted before the new
response is stored. -/
def cacheResponse (cache : List (String × RespCacheEntry)) (questionText : String)
    (response : SystemResponseM) (now : ℚ) : List (String × RespCacheEntry) :=
  let key := requestKey questionText
  let cache1 :=
    if 100 ≤ cache.length then
      match oldestKey cache with
      | some k2 => removeAssoc k2 cache
      | none => cache
    else cache
  insertAssoc key ⟨response, now⟩ cache1

/-! ## Analysis agent post-processing (agents/analysis.py) -/

/-- A structured source reference as built by _ensure_sources: a dict with
id/title/loc/score fields. -/
structure SourceRef where
  id : Option String
  title : Option String
  loc : Option String
  score : Option ℚ
deriving DecidableEq, Repr

/-- A value of the metadata "sources" list: the SDK path stores plain doc-id
strings, _ensure_sources stores structured dicts; both shapes are accepted. -/
inductive SourceItem where
  | str (s : String)
  | ref (r : SourceRef)
deriving DecidableEq, Repr

/-- AnalysisResult from models.py. The metadata dict is modelled by its
claim-relevant keys: "sources" (none = key absent), "error" and "raw_output";
the remaining keys the code writes (request_id, analysis_time, usage,
sdk_result) decide no claim and are elided. -/
structure AnalysisResultM where
  query : String
  question_type : QuestionType
  decision : AgentDecision
  confidence : ℚ
  retrievals : List SearchResult
  draft_answer : String
  metaSources : Option (List SourceItem)
  metaError : Option String
  metaRawOutput : Option String
deriving DecidableEq, Repr

/-- AnalysisOutput from agents/analysis.py: the pydantic-validated structured
output of the language-model collaborator. question_type is validated to its
Literal, so it is typed; decision is kept as the raw string the code
normalizes. metaRetrievals models output.metadata["retrievals"] when it is a
list (the only metadata key of the output the code reads structurally). -/
structure AnalysisOutput where
  draft_answer : String
  sources : List String
  confidence : ℚ
  question_type : QuestionType
  decision : String
  metaRetrievals : Option (List SearchResult)
deriving DecidableEq, Repr

/-- The decision_mapping dict of _analyze_with_sdk (lines 515-524). -/
def decisionMapping (s : String) : String :=
  if s = "oos" ∨ s = "out_of_scope" ∨ s = "outofscooe" then "oos"
  else if s = "retrieve" then "retrieve"
  else if s = "clarify" ∨ s = "ask_clarify" then "clarify"
  else s

/-- Decision parsing of _analyze_with_sdk lines 510-531: lowercase and strip,
apply decision_mapping, then AgentDecision(value); any failure falls back to
OUT_OF_SCOPE. -/
def parseDecision (s : String) : AgentDecision :=
  let v := decisionMapping (pyStrip (pyLower s))
  if v = "retrieve" then AgentDecision.retrieve
  else if v = "oos" then AgentDecision.oos
  else if v = "clarify" then AgentDecision.clarify
  else if v = "needs_edit" then AgentDecision.needs_edit
  else AgentDecision.oos

/-- The default score given to retrievals rebuilt from source ids (line 541). -/
def defaultSourceScore : ℚ := 4/5

/-- Tail of AnalysisAgent._analyze_with_sdk (and the analyze() catch-all):
the Runner call and output parsing are abstracted as the outcome argument
(error = Runner.run raised or analyze() caught an exception; ok none = the
output could not be parsed into AnalysisOutput; ok some = parsed). rawOutput
models getattr(result, "output", None). On the main path retrievals are
rebuilt from the reported source ids with a fixed score of 0.8 unless
output.metadata carries an explicit retrievals list, and metadata always
receives a "sources" key holding the collaborator's source ids. -/
def analyzeWithSdk (questionText : String)
    (outcome : Except String (Option AnalysisOutput)) (rawOutput : Option String) :
    AnalysisResultM :=
  match outcome with
  | Except.error e =>
    { query := questionText, question_type := QuestionType.other,
      decision := AgentDecision.oos, confidence := 0, retrievals := [],
      draft_answer := "", metaSources := none, metaError := some e,
      metaRawOutput := none }
  | Except.ok none =>
    { query := questionText, question_type := QuestionType.other,
      decision := AgentDecision.oos, confidence := 0, retrievals := [],
      draft_answer := "", metaSources := none,
      metaError := some ("failed_to_parse_output"), metaRawOutput := rawOutput }
  | Except.ok (some o) =>
    let rebuilt := o.sources.map (fun sid =>
      ({ doc_id := sid, score := defaultSourceScore,
         excerpt := "來自文件 " ++ sid ++ " 的內容",
         metadata := [("source_filename", sid)] } : SearchResult))
    let retrievals := match o.metaRetrievals with
      | some l => l
      | none => rebuilt
    { query := questionText, question_type := o.question_type,
      decision := parseDecision o.decision, confidence := o.confidence,
      retrievals := retrievals, draft_answer := o.draft_answer,
      metaSources := some (o.sources.map SourceItem.str),
      metaError := none, metaRawOutput := rawOutput }

/-! ## Source back-filling (processor.py _ensure_sources) -/

/-- Conversion of one retrieval into a traceable source (lines 237-246). -/
def sourceOfRetrieval (r : SearchResult) : SourceRef :=
  { id := some r.doc_id, title := lookupA "title" r.metadata,
    loc := lookupA "loc" r.metadata, score := some r.score }

/-- Conversion of one metadata sources item (lines 254-268): a plain string id
becomes a dict with score 0.8; a dict is used as-is. -/
def sourceOfItem : SourceItem → SourceRef
  | SourceItem.str s =>
    { id := some s, title := none, loc := none, score := some defaultSourceScore }
  | SourceItem.ref r => r

/-- The deduplication key of _ensure_sources: the (id, loc) pair. -/
def sourceKey (s : SourceRef) : Option String × Option String :=
  (s.id, s.loc)

/-- First-occurrence deduplication by (id, loc) (lines 272-280). -/
def dedupSourcesGo (seen : List (Option String × Option String)) :
    List SourceRef → List SourceRef
  | [] => []
  | s :: rest =>
    if sourceKey s ∈ seen then dedupSourcesGo seen rest
    else s :: dedupSourcesGo (sourceKey s :: seen) rest

/-- ResumeMateProcessor._ensure_sources: sources from retrievals merged with
any metadata sources, deduplicated by (id, loc) keeping first occurrences,
capped at 5. -/
def ensureSources (a : AnalysisResultM) : List SourceRef :=
  let fromRetrievals := a.retrievals.map sourceOfRetrieval
  let fromMeta := match a.metaSources with
    | some items => items.map sourceOfItem
    | none => []
  (dedupSourcesGo [] (fromRetrievals ++ fromMeta)).take 5

/-- The sources back-fill step of _process_question_internal (line 167):
`analysis.metadata.setdefault("sources", self._ensure_sources(analysis))` —
an existing sources value (of any content, including the empty list) is kept;
only a missing key is filled with the derived list. -/
def fillSources (a : AnalysisResultM) : AnalysisResultM :=
  match a.metaSources with
  | some _ => a
  | none => { a with metaSources := some ((ensureSources a).map SourceItem.ref) }

/-! ## Evaluate agent (agents/evaluate.py) -/

/-- EvaluateOutput from agents/evaluate.py: the pydantic-validated structured
output of the evaluation collaborator (metadata elided; the status Literal is
kept as a string since the code normalizes it as one). -/
structure EvaluateOutput where
  final_answer : String
  sources : List String
  confidence : ℚ
  status : String
deriving DecidableEq, Repr

/-- EvaluationResult from models.py. metadata is modelled by its claim-relevant
keys (error, raw_output, original_question, analysis_confidence). Its status
field has type AgentDecision, which has no escalate-to-human member. -/
structure EvaluationResultM where
  final_answer : String
  sources : List String
  confidence : ℚ
  status : AgentDecision
  metaError : Option String
  metaRawOutput : Option String
  metaOriginalQuestion : Option String
  metaAnalysisConfidence : Option ℚ
deriving DecidableEq, Repr

/-- EvaluateAgent._fallback_status: `hasattr(AgentDecision, "OUT_OF_SCOPE")`
holds, so the fallback status is always OUT_OF_SCOPE ("oos"). -/
def fallbackStatus : AgentDecision := AgentDecision.oos

/-- The character replacements of the status normalization
(`.replace("-", "_").replace(" ", "_")`). -/
def statusChar (c : Char) : Char :=
  if c = '-' ∨ c = ' ' then '_' else c

/-- Status normalization of _map_status_to_agent_decision line 422:
strip, lowercase, then replace hyphens and spaces by underscores. -/
def normalizeStatus (s : String) : String :=
  String.mk ((pyLower (pyStrip s)).data.map statusChar)

/-- EvaluateAgent._map_status_to_agent_decision, evaluated against the actual
members of AgentDecision (RETRIEVE, OUT_OF_SCOPE, ASK_CLARIFY, NEEDS_EDIT):
"oos"/"out_of_scope" map to OUT_OF_SCOPE; "ok" maps via the name map to
RETRIEVE; "needs_edit" to NEEDS_EDIT; "ask_clarify" matches the member name
ASK_CLARIFY. Every other string — including "clarify", "needs_clarification"
and "escalate_to_human", whose name-map targets CLARIFY and ESCALATE_TO_HUMAN
are not members of the enum — falls through the candidate list until the first
hard-coded candidate that is a member name, which is "NEEDS_EDIT". -/
def mapStatus (status : String) : AgentDecision :=
  let s := normalizeStatus status
  if s = "oos" ∨ s = "out_of_scope" then AgentDecision.oos
  else if s = "ok" ∨ s = "retrieve" then AgentDecision.retrieve
  else if s = "needs_edit" then AgentDecision.needs_edit
  else if s = "ask_clarify" then AgentDecision.clarify
  else AgentDecision.needs_edit

/-- Tail of EvaluateAgent._evaluate_with_sdk plus the evaluate() catch-all.
The Runner call and parsing are abstracted as the outcome argument (error =
Runner.run raised or evaluate() caught; ok none = output unparseable; ok some
= parsed EvaluateOutput); rawOutput models getattr(result, "output", None).
On the main path the status string is mapped into AgentDecision and the
metadata receives the original question and the analysis confidence. -/
def evaluateWithSdk (analysis : AnalysisResultM)
    (outcome : Except String (Option EvaluateOutput)) (rawOutput : Option String) :
    EvaluationResultM :=
  match outcome with
  | Except.error e =>
    { final_answer := "抱歉，評估您的問題時發生錯誤，請稍後再試。",
      sources := [], confidence := 0, status := fallbackStatus,
      metaError := some e, metaRawOutput := none,
      metaOriginalQuestion := none, metaAnalysisConfidence := none }
  | Except.ok none =>
    { final_answer := "無法解析模型輸出。", sources := [], confidence := 0,
      status := fallbackStatus, metaError := some ("failed_to_parse_output"),
      metaRawOutput := rawOutput, metaOriginalQuestion := none,
      metaAnalysisConfidence := none }
  | Except.ok (some o) =>
    { final_answer := o.final_answer, sources := o.sources,
      confidence := o.confidence, status := mapStatus o.status,
      metaError := none, metaRawOutput := none,
      metaOriginalQuestion := some analysis.query,
      metaAnalysisConfidence := some analysis.confidence }

/-! ## Turn pipeline (processor.py) -/

/-- ResumeMateProcessor._format_system_response: clamp the confidence to [0,1],
normalize the status to its string value, and derive the action hint (the
status metadata key is modelled; the merged evaluation metadata is carried by
the EvaluationResultM fields). -/
def formatSystemResponse (evaluation : EvaluationResultM) : SystemResponseM :=
  let conf := max 0 (min 1 evaluation.confidence)
  let statusStr := evaluation.status.value
  let action :=
    if statusStr = "needs_clarification" ∨ statusStr = "clarify" then
      some ("請提供更多資訊")
    else if statusStr = "out_of_scope" ∨ statusStr = "oos" then
      some ("請填寫聯絡表單")
    else if statusStr = "escalate_to_human" then
      some ("請填寫聯絡表單")
    else none
  { answer := evaluation.final_answer, sources := evaluation.sources,
    confidence := conf, action := action, metadata := [("status", statusStr)] }

/-- ResumeMateProcessor._process_question_internal for one turn: request-cache
check, sources back-fill, one evaluation, response formatting, response
caching. The analysis value stands for the awaited analyze() result and the
evaluator oracle for the awaited evaluate() call; the middle component of the
result collects every EvaluationResult produced during the turn (one oracle
invocation per element). The code contains no revision loop: a needs_edit
status is formatted and returned like any other, never fed back. -/
def processQuestionInternal (enableRequestCache : Bool) (cacheTtl now : ℚ)
    (requestCache : List (String × RespCacheEntry)) (questionText : String)
    (analysis : AnalysisResultM)
    (evaluator : AnalysisResultM → EvaluationResultM) :
    SystemResponseM × List EvaluationResultM × List (String × RespCacheEntry) :=
  let cacheStep :=
    if enableRequestCache then checkRequestCache cacheTtl now requestCache questionText
    else (none, requestCache)
  match cacheStep.1 with
  | some r => (r, [], cacheStep.2)
  | none =>
    let a := fillSources analysis
    let e := evaluator a
    let resp := formatSystemResponse e
    let cache2 :=
      if enableRequestCache then cacheResponse cacheStep.2 questionText resp now
      else cacheStep.2
    (resp, [e], cache2)

/-! ## Spec-side confidence arithmetic (for claim C3) -/

/-- Maximum of a list of scores (0 on the empty list). -/
def listMaxQ : List ℚ → ℚ
  | [] => 0
  | [x] => x
  | x :: y :: rest => max x (listMaxQ (y :: rest))

/-- Sum of a list of scores. -/
def listSumQ : List ℚ → ℚ
  | [] => 0
  | x :: rest => x + listSumQ rest

/-- Modelled from the spec: the confidence arithmetic of §4.3 —
`clamp(maxScore*0.7 + avgScore*0.3, 0, 1)` scaled by the count factor (×1.0
for at least 3 results, ×0.8 for exactly 2, ×0.6 for exactly 1). No
corresponding computation exists anywhere in the repository's source; this
definition follows the spec's words for comparison with the code. -/
def specConfidenceFormula (scores : List ℚ) : ℚ :=
  let mx := listMaxQ scores
  let avg := if scores.length = 0 then 0 else listSumQ scores / scores.length
  let raw := max 0 (min 1 (mx * (7/10) + avg * (3/10)))
  let factor : ℚ :=
    if 3 ≤ scores.length then 1
    else if scores.length = 2 then 4/5
    else if scores.length = 1 then 3/5
    else 0
  raw * factor

/-! ## Concrete fixtures used by witnesses and counterexamples -/

/-- A small configuration (cache_size = 1) used by the C2 counterexample. -/
def cfgSmallCache : RAGConfig := { defaultRAGConfig with cache_size := 1 }

/-- RAG state holding one query-cache entry, i.e. at cfgSmallCache capacity. -/
def stFullCache : RAGState :=
  { queryCache := [("a:5", ⟨[], 0⟩)], embeddingCache := [], upstreamCalls := 0,
    totalQueries := 0, cacheHits := 0 }

/-- A response-cache entry with a given timestamp, used by the C2 witness. -/
def witnessRespEntry (t : ℚ) : RespCacheEntry :=
  ⟨⟨"a", [], 1, none, []⟩, t⟩

/-- Tail of the 100-entry response cache used by the C2 witness: 99 entries
with distinct keys and timestamps 1..99. -/
def witnessRespTail : List (String × RespCacheEntry) :=
  List.map (fun i : ℕ => (toString (i + 1), witnessRespEntry ((i : ℚ) + 1))) (List.range 99)

/-- A concrete analysis context for the C1 counterexample. -/
def cexAnalysis : AnalysisResultM :=
  { query := "q", question_type := QuestionType.other,
    decision := AgentDecision.oos, confidence := 0, retrievals := [],
    draft_answer := "", metaSources := none, metaError := none,
    metaRawOutput := none }

/-- A parsed collaborator output with three sources and reported confidence
0.2, used by the C3 counterexample. -/
def cexOutput3 : AnalysisOutput :=
  { draft_answer := "x", sources := ["a", "b", "c"], confidence := 1/5,
    question_type := QuestionType.skill, decision := "retrieve",
    metaRetrievals := none }

/-- A parsed collaborator output with decision retrieve and an empty sources
list, used by the C6 counterexample. -/
def cexOutput6 : AnalysisOutput :=
  { draft_answer := "d", sources := [], confidence := 9/10,
    question_type := QuestionType.skill, decision := "retrieve",
    metaRetrievals := none }

/-! ## Association-list lemmas -/

/-- Looking up the key just inserted returns the inserted value. -/
theorem lookupA_insertAssoc_self {α : Type} (k : String) (v : α)
    (l : List (String × α)) : lookupA k (insertAssoc k v l) = some v := by
  induction l with
  | nil => simp [insertAssoc, lookupA]
  | cons p rest ih =>
    by_cases h : p.1 = k
    · simp [insertAssoc, lookupA, h]
    · simp [insertAssoc, lookupA, h, ih]

/-- A key absent from an association list stays absent after filtering. -/
theorem lookupA_filter_of_none {α : Type} (k : String)
    (p : String × α → Bool) (l : List (String × α))
    (h : lookupA k l = none) : lookupA k (List.filter p l) = none := by
  induction l with
  | nil => simp [List.filter, lookupA]
  | cons q rest ih =>
    obtain ⟨qk, qv⟩ := q
    rw [lookupA] at h
    by_cases hk : qk = k
    · simp [hk] at h
    · rw [if_neg hk] at h
      by_cases hpq : p (qk, qv)
      · simp [List.filter_cons, hpq, lookupA, hk, ih h]
      · simp [List.filter_cons, hpq, ih h]

/-- A present binding that the filter keeps is still found after filtering. -/
theorem lookupA_filter_of_some {α : Type} (k : String) (v : α)
    (p : String × α → Bool) (l : List (String × α))
    (h : lookupA k l = some v) (hp : p (k, v) = true) :
    lookupA k (List.filter p l) = some v := by
  induction l with
  | nil => simp [lookupA] at h
  | cons q rest ih =>
    obtain ⟨qk, qv⟩ := q
    rw [lookupA] at h
    by_cases hk : qk = k
    · rw [if_pos hk] at h
      injection h with hveq
      subst hveq
      subst hk
      simp [List.filter_cons, hp, lookupA]
    · rw [if_neg hk] at h
      by_cases hpq : p (qk, qv)
      · simp [List.filter_cons, hpq, lookupA, hk, ih h]
      · simp [List.filter_cons, hpq, ih h]

/-! ## Oldest-entry and deduplication lemmas -/

/-- The entry selected by oldestEntryGo carries a minimal timestamp among the
running best and the remaining entries. -/
theorem oldestEntryGo_le (best : String × RespCacheEntry)
    (l : List (String × RespCacheEntry)) :
    (oldestEntryGo best l).2.timestamp ≤ best.2.timestamp ∧
    ∀ p ∈ l, (oldestEntryGo best l).2.timestamp ≤ p.2.timestamp := by
  induction l generalizing best with
  | nil => simp [oldestEntryGo]
  | cons q rest ih =>
    rw [oldestEntryGo]
    by_cases h : q.2.timestamp < best.2.timestamp
    · rw [if_pos h]
      obtain ⟨h1, h2⟩ := ih q
      refine ⟨le_trans h1 (le_of_lt h), ?_⟩
      intro p hp
      rcases List.mem_cons.mp hp with hpe | hpm
      · rw [hpe]
        exact h1
      · exact h2 p hpm
    · rw [if_neg h]
      obtain ⟨h1, h2⟩ := ih best
      push_neg at h
      refine ⟨h1, ?_⟩
      intro p hp
      rcases List.mem_cons.mp hp with hpe | hpm
      · rw [hpe]
        exact le_trans h1 h
      · exact h2 p hpm

/-- Length of the witness tail. -/
theorem witnessRespTail_length : witnessRespTail.length = 99 := by
  rw [witnessRespTail, List.length_map, List.length_range]

/-- Pairwise distinctness of the (id, loc) keys produced by the
first-occurrence deduplication, together with freshness against the seen set. -/
theorem dedupSourcesGo_pairwise (l : List SourceRef)
    (seen : List (Option String × Option String)) :
    List.Pairwise (fun x y => sourceKey x ≠ sourceKey y) (dedupSourcesGo seen l) ∧
    ∀ x ∈ dedupSourcesGo seen l, sourceKey x ∉ seen := by
  induction l generalizing seen with
  | nil => simp [dedupSourcesGo]
  | cons s rest ih =>
    rw [dedupSourcesGo]
    by_cases hs : sourceKey s ∈ seen
    · rw [if_pos hs]
      exact ih seen
    · rw [if_neg hs]
      obtain ⟨hpw, hfresh⟩ := ih (sourceKey s :: seen)
      constructor
      · refine List.pairwise_cons.mpr ⟨?_, hpw⟩
        intro y hy
        have := hfresh y hy
        intro hk
        exact this (by rw [← hk]; exact List.mem_cons_self _ _)
      · intro x hx
        rcases List.mem_cons.mp hx with hxe | hxm
        · rw [hxe]
          exact hs
        · intro hxseen
          exact hfresh x hxm (List.mem_cons_of_mem _ hxseen)

/-! ## Behavioral lemmas for rag_search -/

/-- Cache-miss run of rag_search: with valid input, the key absent and room in
the cache, the search computes through the upstream pipeline exactly once and
stores the computed results under the key with the current timestamp. -/
theorem rag_search_miss_spec (cfg : RAGConfig)
    (retrieve : String → Int → List SearchResult) (now : ℚ) (st : RAGState)
    (query : String) (top_k : Int)
    (hv : validateInput cfg query top_k = Except.ok ())
    (henable : cfg.enable_query_cache = true)
    (hmiss : lookupA (getCacheKey query top_k) st.queryCache = none)
    (hroom : st.queryCache.length < cfg.cache_size) :
    (rag_search cfg retrieve now st query top_k).1 =
      retrieve (if cfg.query_preprocessing then preprocessQuery query else query) top_k ∧
    (rag_search cfg retrieve now st query top_k).2.upstreamCalls = st.upstreamCalls + 1 ∧
    (rag_search cfg retrieve now st query top_k).2.totalQueries = st.totalQueries + 1 ∧
    lookupA (getCacheKey query top_k) (rag_search cfg retrieve now st query top_k).2.queryCache =
      some ⟨(rag_search cfg retrieve now st query top_k).1, now⟩ := by
  unfold rag_search
  rw [hv]
  by_cases hc : (st.totalQueries + 1) % 50 = 0
  · have hmiss2 := lookupA_filter_of_none (getCacheKey query top_k)
      (fun p => isCacheValid cfg now p.2.timestamp) st.queryCache hmiss
    have hroom2 : (List.filter (fun p => isCacheValid cfg now p.2.timestamp)
        st.queryCache).length < cfg.cache_size :=
      lt_of_le_of_lt (List.length_filter_le _ _) hroom
    simp [hc, queryCacheLookup, henable, cleanupQueryCache, hmiss2, computeAndCache,
      hroom2, lookupA_insertAssoc_self]
  · simp [hc, queryCacheLookup, henable, hmiss, computeAndCache, hroom,
      lookupA_insertAssoc_self]

/-- Cache-hit run of rag_search: with valid input and a TTL-fresh entry under
the key, the cached results are returned and no upstream call happens. -/
theorem rag_search_hit_spec (cfg : RAGConfig)
    (retrieve : String → Int → List SearchResult) (now : ℚ) (st : RAGState)
    (query : String) (top_k : Int) (entry : QueryCacheEntry)
    (hv : validateInput cfg query top_k = Except.ok ())
    (henable : cfg.enable_query_cache = true)
    (hhit : lookupA (getCacheKey query top_k) st.queryCache = some entry)
    (hfresh : now - entry.timestamp < cfg.cache_ttl_seconds) :
    (rag_search cfg retrieve now st query top_k).1 = entry.results ∧
    (rag_search cfg retrieve now st query top_k).2.upstreamCalls = st.upstreamCalls := by
  unfold rag_search
  rw [hv]
  have hvalid : isCacheValid cfg now entry.timestamp = true := by
    simp [isCacheValid, hfresh]
  by_cases hc : (st.totalQueries + 1) % 50 = 0
  · have hhit2 := lookupA_filter_of_some (getCacheKey query top_k) entry
      (fun p => isCacheValid cfg now p.2.timestamp) st.queryCache hhit hvalid
    simp [hc, queryCacheLookup, henable, cleanupQueryCache, hhit2, hvalid]
  · simp [hc, queryCacheLookup, henable, hhit, hvalid]

/-! ## Theorems for claim C1 (malformed collaborator output fallback) -/

/-- Counterexample for C1 as stated: on unparseable evaluator output, the
fallback EvaluationResult has confidence 0 and records the raw payload, but
its status value is "oos" (out_of_scope), not "escalate_to_human" — the
AgentDecision enum backing the status field has no escalate-to-human member
for _fallback_status to return. -/
theorem evaluate_fallback_status_counterexample :
    (evaluateWithSdk cexAnalysis (Except.ok none) (some ("malformed raw payload"))).confidence = 0 ∧
    (evaluateWithSdk cexAnalysis (Except.ok none) (some ("malformed raw payload"))).metaRawOutput =
      some ("malformed raw payload") ∧
    (evaluateWithSdk cexAnalysis (Except.ok none) (some ("malformed raw payload"))).status.value =
      "oos" ∧
    ¬ (evaluateWithSdk cexAnalysis (Except.ok none) (some ("malformed raw payload"))).status.value =
      "escalate_to_human" :=
  ⟨rfl, rfl, rfl, by decide⟩

/-- C1 (amended): for every malformed or failed collaborator interaction, both
agents fall back to a safe default without raising — confidence 0, status
OUT_OF_SCOPE (not escalate_to_human: AgentDecision has no such member and
_fallback_status selects OUT_OF_SCOPE), and on the parse-failure paths the raw
payload is recorded in metadata for diagnosis. -/
theorem evaluate_malformed_output_fallback :
    (∀ (a : AnalysisResultM) (raw : Option String),
      (evaluateWithSdk a (Except.ok none) raw).confidence = 0 ∧
      (evaluateWithSdk a (Except.ok none) raw).status = fallbackStatus ∧
      fallbackStatus = AgentDecision.oos ∧
      (evaluateWithSdk a (Except.ok none) raw).metaRawOutput = raw ∧
      (evaluateWithSdk a (Except.ok none) raw).metaError = some ("failed_to_parse_output")) ∧
    (∀ (a : AnalysisResultM) (msg : String),
      (evaluateWithSdk a (Except.error msg) none).confidence = 0 ∧
      (evaluateWithSdk a (Except.error msg) none).status = AgentDecision.oos ∧
      (evaluateWithSdk a (Except.error msg) none).metaError = some msg) ∧
    (∀ (q : String) (raw : Option String),
      (analyzeWithSdk q (Except.ok none) raw).confidence = 0 ∧
      (analyzeWithSdk q (Except.ok none) raw).decision = AgentDecision.oos ∧
      (analyzeWithSdk q (Except.ok none) raw).metaRawOutput = raw ∧
      (analyzeWithSdk q (Except.ok none) raw).metaError = some ("failed_to_parse_output")) :=
  ⟨fun a raw => ⟨rfl, rfl, rfl, rfl, rfl⟩,
   fun a msg => ⟨rfl, rfl, rfl⟩,
   fun q raw => ⟨rfl, rfl, rfl, rfl⟩⟩

/-! ## Theorems for claim C2 (behavior of full caches) -/

/-- Counterexample for C2 as stated: with the query cache at its configured
capacity, searching a new query computes a result but does not store it and
evicts nothing — the cache is unchanged, the new key is absent, and the old
entry survives. -/
theorem rag_cache_full_insert_counterexample :
    cfgSmallCache.cache_size = 1 ∧
    stFullCache.queryCache.length = 1 ∧
    (rag_search cfgSmallCache (fun _ _ => [sampleResult]) 0 stFullCache "b" 5).1 =
      [sampleResult] ∧
    (rag_search cfgSmallCache (fun _ _ => [sampleResult]) 0 stFullCache "b" 5).2.queryCache =
      stFullCache.queryCache ∧
    lookupA (getCacheKey "b" 5)
      (rag_search cfgSmallCache (fun _ _ => [sampleResult]) 0 stFullCache "b" 5).2.queryCache =
      none :=
  ⟨rfl, rfl, rfl, rfl, rfl⟩

/-- C2 (amended): only the processor's per-question response cache evicts on
overflow: at 100 or more entries _cache_response deletes the entry with the
globally minimal timestamp and then stores the new value. The RAG query cache
(rag.py line 313-318) instead skips the insertion entirely once it holds
cache_size entries, leaving the cache unchanged; its entries are removed only
by TTL expiry. -/
theorem cache_capacity_eviction_behavior :
    (∀ (p : String × RespCacheEntry) (rest : List (String × RespCacheEntry))
       (q : String) (resp : SystemResponseM) (now : ℚ),
       100 ≤ (p :: rest).length →
       lookupA (requestKey q) (cacheResponse (p :: rest) q resp now) = some ⟨resp, now⟩ ∧
       cacheResponse (p :: rest) q resp now =
         insertAssoc (requestKey q) ⟨resp, now⟩
           (removeAssoc (oldestEntryGo p rest).1 (p :: rest)) ∧
       (∀ x ∈ p :: rest, (oldestEntryGo p rest).2.timestamp ≤ x.2.timestamp)) ∧
    (∀ (cfg : RAGConfig) (retrieve : String → Int → List SearchResult) (now : ℚ)
       (st : RAGState) (query : String) (top_k : Int),
       validateInput cfg query top_k = Except.ok () →
       (st.totalQueries + 1) % 50 ≠ 0 →
       lookupA (getCacheKey query top_k) st.queryCache = none →
       cfg.cache_size ≤ st.queryCache.length →
       (rag_search cfg retrieve now st query top_k).2.queryCache = st.queryCache) := by
  constructor
  · intro p rest q resp now hfull
    have hone : cacheResponse (p :: rest) q resp now =
        insertAssoc (requestKey q) ⟨resp, now⟩
          (removeAssoc (oldestEntryGo p rest).1 (p :: rest)) := by
      unfold cacheResponse
      rw [if_pos hfull]
      rfl
    refine ⟨?_, hone, ?_⟩
    · rw [hone]
      exact lookupA_insertAssoc_self _ _ _
    · intro x hx
      rcases List.mem_cons.mp hx with hxe | hxm
      · rw [hxe]
        exact (oldestEntryGo_le p rest).1
      · exact (oldestEntryGo_le p rest).2 x hxm
  · intro cfg retrieve now st query top_k hv hnc hmiss hfull
    unfold rag_search
    rw [hv]
    have hnoroom : ¬ st.queryCache.length < cfg.cache_size := not_lt.mpr hfull
    rcases hb : cfg.enable_query_cache with _ | _
    · simp [hnc, queryCacheLookup, hb, computeAndCache]
    · simp [hnc, queryCacheLookup, hb, hmiss, computeAndCache, hnoroom]

/-- Witness for C2 (amended): a 100-entry response cache evicts its oldest
entry and stores the new response, while a full one-entry RAG query cache is
left unchanged by a search for a new query. -/
theorem cache_capacity_eviction_behavior_witness :
    lookupA (requestKey "q")
      (cacheResponse (("k0", witnessRespEntry 0) :: witnessRespTail) "q"
        ⟨"new", [], 1, none, []⟩ 200) = some ⟨⟨"new", [], 1, none, []⟩, 200⟩ ∧
    (rag_search cfgSmallCache (fun _ _ => [sampleResult]) 0 stFullCache "c" 5).2.queryCache =
      stFullCache.queryCache := by
  constructor
  · exact ((cache_capacity_eviction_behavior.1 ("k0", witnessRespEntry 0)
      witnessRespTail "q" ⟨"new", [], 1, none, []⟩ 200)
      (by rw [List.length_cons, witnessRespTail_length])).1
  · exact cache_capacity_eviction_behavior.2 cfgSmallCache (fun _ _ => [sampleResult])
      0 stFullCache "c" 5 rfl (by decide) rfl (by decide)

/-! ## Theorems for claim C3 (analysis confidence arithmetic) -/

/-- Counterexample for C3 as stated: a retrieve-decision analysis whose three
retrieval scores are all 0.8 (so the spec formula yields 0.8 with count factor
1 and the best score clears any low threshold) carries confidence 0.2 — the
collaborator-reported value — instead of the formula value. -/
theorem analysis_confidence_formula_counterexample :
    (analyzeWithSdk "q" (Except.ok (some cexOutput3)) none).decision =
      AgentDecision.retrieve ∧
    (analyzeWithSdk "q" (Except.ok (some cexOutput3)) none).retrievals.map
      SearchResult.score = [4/5, 4/5, 4/5] ∧
    specConfidenceFormula
      ((analyzeWithSdk "q" (Except.ok (some cexOutput3)) none).retrievals.map
        SearchResult.score) = 4/5 ∧
    (analyzeWithSdk "q" (Except.ok (some cexOutput3)) none).confidence = 1/5 ∧
    ¬ (analyzeWithSdk "q" (Except.ok (some cexOutput3)) none).confidence =
      specConfidenceFormula
        ((analyzeWithSdk "q" (Except.ok (some cexOutput3)) none).retrievals.map
          SearchResult.score) := by
  have hscores : (analyzeWithSdk "q" (Except.ok (some cexOutput3)) none).retrievals.map
      SearchResult.score = [4/5, 4/5, 4/5] := rfl
  have hformula : specConfidenceFormula [4/5, 4/5, 4/5] = (4/5 : ℚ) := by
    have hmx : listMaxQ [4/5, 4/5, 4/5] = (4/5 : ℚ) := by
      simp [listMaxQ]
    have hsum : listSumQ [4/5, 4/5, 4/5] = (12/5 : ℚ) := by
      norm_num [listSumQ]
    simp only [specConfidenceFormula, hmx, hsum, List.length_cons, List.length_nil]
    norm_num
  have hconf : (analyzeWithSdk "q" (Except.ok (some cexOutput3)) none).confidence =
      (1/5 : ℚ) := rfl
  refine ⟨rfl, hscores, ?_, hconf, ?_⟩
  · rw [hscores, hformula]
  · rw [hscores, hformula, hconf]
    norm_num

/-- C3 (amended): the analysis confidence is the collaborator-reported
confidence passed through unchanged; no score-based formula is applied
anywhere in the code (the retrievals rebuilt from source ids all carry the
fixed default score 0.8 and do not influence the confidence). -/
theorem analysis_confidence_passthrough :
    ∀ (q : String) (o : AnalysisOutput) (raw : Option String),
      (analyzeWithSdk q (Except.ok (some o)) raw).confidence = o.confidence :=
  fun _ _ _ => rfl

/-! ## Theorems for claim C4 (no second needs_edit within a turn) -/

/-- C4: within any single turn the processor invokes the evaluator at most
once (there is no revision loop in the code), so the list of evaluation
results produced during a turn has length at most 1, and in particular
needs_edit cannot occur twice. -/
theorem evaluator_single_invocation_per_turn :
    ∀ (enableRequestCache : Bool) (cacheTtl now : ℚ)
      (requestCache : List (String × RespCacheEntry)) (questionText : String)
      (analysis : AnalysisResultM)
      (evaluator : AnalysisResultM → EvaluationResultM),
      (processQuestionInternal enableRequestCache cacheTtl now requestCache
        questionText analysis evaluator).2.1.length ≤ 1 ∧
      List.countP (fun e => decide (e.status = AgentDecision.needs_edit))
        (processQuestionInternal enableRequestCache cacheTtl now requestCache
          questionText analysis evaluator).2.1 ≤ 1 := by
  intro enableRequestCache cacheTtl now requestCache questionText analysis evaluator
  have hlen : (processQuestionInternal enableRequestCache cacheTtl now requestCache
      questionText analysis evaluator).2.1.length ≤ 1 := by
    unfold processQuestionInternal
    rcases hh : (if enableRequestCache then
        checkRequestCache cacheTtl now requestCache questionText
      else (none, requestCache)).1 with _ | r <;> simp [hh]
  exact ⟨hlen, le_trans (List.countP_le_length _) hlen⟩

/-! ## Theorems for claims C10 and C5 (input validation of rag_search) -/

/-- Validation failures make rag_search return the empty list with only the
total-query counter bumped: caches and the upstream-call counter are untouched. -/
theorem rag_search_of_validate_error (cfg : RAGConfig)
    (retrieve : String → Int → List SearchResult) (now : ℚ) (st : RAGState)
    (query : String) (top_k : Int)
    (h : isError (validateInput cfg query top_k) = true) :
    rag_search cfg retrieve now st query top_k =
      ([], { st with totalQueries := st.totalQueries + 1 }) := by
  unfold rag_search
  cases hv : validateInput cfg query top_k with
  | error msg => rfl
  | ok u => rw [hv] at h; simp [isError] at h

/-- C10: for every query and every top_k strictly above the configured
max_top_k (default 15), rag_search performs no retrieval and yields the empty
result list; the upper bound is enforced as an input-validation failure. -/
theorem rag_search_topk_upper_bound (cfg : RAGConfig)
    (retrieve : String → Int → List SearchResult) (now : ℚ) (st : RAGState)
    (query : String) (top_k : Int) (h : cfg.max_top_k < top_k) :
    isError (validateInput cfg query top_k) = true ∧
    rag_search cfg retrieve now st query top_k =
      ([], { st with totalQueries := st.totalQueries + 1 }) ∧
    defaultRAGConfig.max_top_k = 15 := by
  have hv : isError (validateInput cfg query top_k) = true := by
    unfold validateInput
    by_cases hq : pyStrip query = ""
    · simp [hq, isError]
    · simp [hq, isError, Or.inr h]
  exact ⟨hv, rag_search_of_validate_error cfg retrieve now st query top_k hv, rfl⟩

/-- Witness for C10: top_k = 16 against the default configuration
(max_top_k = 15) is rejected by validation and returns the empty list. -/
theorem rag_search_topk_upper_bound_witness :
    isError (validateInput defaultRAGConfig "hello" 16) = true ∧
    rag_search defaultRAGConfig (fun _ _ => [sampleResult]) 0 initialRAGState "hello" 16 =
      ([], { initialRAGState with totalQueries := 1 }) ∧
    defaultRAGConfig.max_top_k = 15 :=
  rag_search_topk_upper_bound defaultRAGConfig (fun _ _ => [sampleResult]) 0
    initialRAGState "hello" 16 (by decide)

/-- C5 (amended): an empty (or whitespace-only) query or a non-positive top_k
is rejected by _validate_input before any cache or network access, but the
ValueError is caught by rag_search's catch-all, which surfaces it to the caller
as an empty result list (caches and upstream-call counter unchanged). -/
theorem rag_search_input_error_swallowed (cfg : RAGConfig)
    (retrieve : String → Int → List SearchResult) (now : ℚ) (st : RAGState)
    (query : String) (top_k : Int) (h : pyStrip query = "" ∨ top_k ≤ 0) :
    isError (validateInput cfg query top_k) = true ∧
    rag_search cfg retrieve now st query top_k =
      ([], { st with totalQueries := st.totalQueries + 1 }) := by
  have hv : isError (validateInput cfg query top_k) = true := by
    unfold validateInput
    rcases h with hq | hk
    · simp [hq, isError]
    · by_cases hq : pyStrip query = ""
      · simp [hq, isError]
      · simp [hq, isError, Or.inl hk]
  exact ⟨hv, rag_search_of_validate_error cfg retrieve now st query top_k hv⟩

/-- Counterexample for C5 as stated: calling rag_search with the empty query
does not surface an input error to the caller — the ValueError raised by
validation is swallowed and the caller receives a silent empty result list
(with no upstream call and no cache access). -/
theorem rag_search_input_error_counterexample :
    isError (validateInput defaultRAGConfig "" 5) = true ∧
    (rag_search defaultRAGConfig (fun _ _ => [sampleResult]) 0 initialRAGState "" 5).1 = [] ∧
    (rag_search defaultRAGConfig (fun _ _ => [sampleResult]) 0 initialRAGState "" 5).2.upstreamCalls = 0 ∧
    (rag_search defaultRAGConfig (fun _ _ => [sampleResult]) 0 initialRAGState "" 5).2.queryCache = [] := by
  have h := rag_search_of_validate_error defaultRAGConfig (fun _ _ => [sampleResult]) 0
    initialRAGState "" 5 (by decide)
  refine ⟨by decide, ?_, ?_, ?_⟩
  · rw [h]
  · rw [h]
    rfl
  · rw [h]
    rfl

/-- Witness for C5 (amended): a whitespace-only query with top_k = 3 is
rejected by validation and surfaced as an empty result list. -/
theorem rag_search_input_error_swallowed_witness :
    isError (validateInput defaultRAGConfig "   " 3) = true ∧
    rag_search defaultRAGConfig (fun _ _ => [sampleResult]) 7 initialRAGState "   " 3 =
      ([], { initialRAGState with totalQueries := 1 }) :=
  rag_search_input_error_swallowed defaultRAGConfig (fun _ _ => [sampleResult]) 7
    initialRAGState "   " 3 (by decide)

/-! ## Theorems for claim C6 (sources invariant before evaluation) -/

/-- Counterexample for C6 as stated: an analysis with routing decision
retrieve whose collaborator output reported no sources reaches the evaluator
with metadata sources = [] — the empty list — because the SDK path always
pre-populates the sources key and setdefault keeps it, so the non-emptiness
the claim asserts does not hold. -/
theorem analysis_sources_empty_counterexample :
    (analyzeWithSdk "q" (Except.ok (some cexOutput6)) none).decision =
      AgentDecision.retrieve ∧
    (fillSources (analyzeWithSdk "q" (Except.ok (some cexOutput6)) none)).metaSources =
      some [] :=
  ⟨rfl, rfl⟩

/-- C6 (amended): before the evaluator runs, the processor guarantees the
analysis metadata has a sources key: an existing value (always present on the
SDK path, possibly the empty list) is kept unchanged, and only a missing key
is filled with the derived list — retrievals merged with metadata sources,
deduplicated by the (id, loc) pair keeping first occurrences, capped at 5
entries. Non-emptiness is not guaranteed. -/
theorem fill_sources_invariant :
    (∀ a : AnalysisResultM, (fillSources a).metaSources ≠ none) ∧
    (∀ (a : AnalysisResultM) (s : List SourceItem), a.metaSources = some s →
       (fillSources a).metaSources = some s) ∧
    (∀ a : AnalysisResultM, a.metaSources = none →
       (fillSources a).metaSources = some ((ensureSources a).map SourceItem.ref)) ∧
    (∀ a : AnalysisResultM, (ensureSources a).length ≤ 5) ∧
    (∀ a : AnalysisResultM,
       List.Pairwise (fun x y => sourceKey x ≠ sourceKey y) (ensureSources a)) := by
  refine ⟨?_, ?_, ?_, ?_, ?_⟩
  · intro a
    unfold fillSources
    cases h : a.metaSources with
    | none => simp
    | some s => simp [h]
  · intro a s h
    simp [fillSources, h]
  · intro a h
    simp [fillSources, h]
  · intro a
    unfold ensureSources
    exact List.length_take_le 5 _
  · intro a
    unfold ensureSources
    exact List.Pairwise.sublist (List.take_sublist 5 _)
      (dedupSourcesGo_pairwise _ []).1

/-- Witness for C6 (amended): on an analysis with a present (empty) sources
key the value is kept; on one with a missing key and two retrievals sharing
(id, loc), the back-fill stores the single deduplicated reference; the derived
list is within the cap and has pairwise-distinct keys. -/
theorem fill_sources_invariant_witness :
    (fillSources (analyzeWithSdk "q" (Except.ok (some cexOutput6)) none)).metaSources ≠
      none ∧
    (fillSources (analyzeWithSdk "q" (Except.ok (some cexOutput6)) none)).metaSources =
      some [] ∧
    (fillSources cexAnalysis).metaSources =
      some ((ensureSources cexAnalysis).map SourceItem.ref) ∧
    (ensureSources cexAnalysis).length ≤ 5 ∧
    List.Pairwise (fun x y => sourceKey x ≠ sourceKey y) (ensureSources cexAnalysis) :=
  ⟨fill_sources_invariant.1 (analyzeWithSdk "q" (Except.ok (some cexOutput6)) none),
   fill_sources_invariant.2.1 (analyzeWithSdk "q" (Except.ok (some cexOutput6)) none)
     [] rfl,
   fill_sources_invariant.2.2.1 cexAnalysis rfl,
   fill_sources_invariant.2.2.2.1 cexAnalysis,
   fill_sources_invariant.2.2.2.2 cexAnalysis⟩

/-! ## Theorems for claim C7 (freshness law of the three TTL caches) -/

/-- C7: for every cache entry of the query-result cache, the embedding cache
and the per-question response cache, once now - timestamp ≥ ttl holds, a lookup
never returns that entry's value: the query-cache lookup misses, the embedding
lookup falls through to a fresh embed call, and the request-cache lookup
returns none (deleting the stale entry). -/
theorem cache_freshness_law :
    (∀ (cfg : RAGConfig) (now : ℚ) (cache : List (String × QueryCacheEntry))
       (key : String) (e : QueryCacheEntry), lookupA key cache = some e →
       cfg.cache_ttl_seconds ≤ now - e.timestamp →
       queryCacheLookup cfg now cache key = none) ∧
    (∀ (cfg : RAGConfig) (embed : String → Option (List ℚ)) (now : ℚ)
       (cache : List (String × EmbCacheEntry)) (text : String) (e : EmbCacheEntry),
       lookupA text cache = some e →
       cfg.cache_ttl_seconds ≤ now - e.timestamp →
       (getEmbeddingWithCache cfg embed now cache text).1 = embed text) ∧
    (∀ (cacheTtl now : ℚ) (cache : List (String × RespCacheEntry))
       (questionText : String) (e : RespCacheEntry),
       lookupA (requestKey questionText) cache = some e →
       cacheTtl ≤ now - e.timestamp →
       (checkRequestCache cacheTtl now cache questionText).1 = none) := by
  refine ⟨?_, ?_, ?_⟩
  · intro cfg now cache key e hl hstale
    unfold queryCacheLookup
    rcases hb : cfg.enable_query_cache with _ | _
    · simp [hb]
    · simp only [hb, hl]
      simp [isCacheValid, not_lt.mpr hstale]
  · intro cfg embed now cache text e hl hstale
    unfold getEmbeddingWithCache
    rcases hb : cfg.enable_embedding_cache with _ | _
    · simp [hb]
    · simp only [hb, hl]
      have hv : isCacheValid cfg now e.timestamp = false := by
        simp [isCacheValid, not_lt.mpr hstale]
      rw [hv]
      cases hembed : embed text <;> simp [hembed]
  · intro cacheTtl now cache questionText e hl hstale
    unfold checkRequestCache
    simp only [hl]
    simp [not_lt.mpr hstale]

/-- Witness for C7: each of the three caches holding one entry of age exactly
its TTL misses on lookup (the embedding lookup re-embeds). -/
theorem cache_freshness_law_witness :
    queryCacheLookup defaultRAGConfig 3600 [("k", ⟨[sampleResult], 0⟩)] "k" = none ∧
    (getEmbeddingWithCache defaultRAGConfig (fun _ => some [2]) 3600
      [("t", ⟨[1], 0⟩)] "t").1 = (fun _ => some ([2] : List ℚ)) "t" ∧
    (checkRequestCache processorCacheTtl 400
      [("q", ⟨⟨"a", [], 1, none, []⟩, 100⟩)] "q").1 = none :=
  ⟨cache_freshness_law.1 defaultRAGConfig 3600 [("k", ⟨[sampleResult], 0⟩)] "k"
     ⟨[sampleResult], 0⟩ rfl (by norm_num [defaultRAGConfig]),
   cache_freshness_law.2.1 defaultRAGConfig (fun _ => some [2]) 3600
     [("t", ⟨[1], 0⟩)] "t" ⟨[1], 0⟩ rfl (by norm_num [defaultRAGConfig]),
   cache_freshness_law.2.2 processorCacheTtl 400
     [("q", ⟨⟨"a", [], 1, none, []⟩, 100⟩)] "q" ⟨⟨"a", [], 1, none, []⟩, 100⟩
     rfl (by norm_num [processorCacheTtl])⟩

/-! ## Theorems for claim C8 (normalized queries share one cache entry) -/

/-- C8: two queries that normalize identically (differ only by case or
surrounding whitespace) with the same top_k map to the same cache key; calling
rag_search for the first and then for the second returns the same value for
both and records exactly one upstream call. -/
theorem normalized_query_cache_sharing (cfg : RAGConfig)
    (retrieve : String → Int → List SearchResult) (now1 now2 : ℚ) (st : RAGState)
    (q1 q2 : String) (top_k : Int)
    (henable : cfg.enable_query_cache = true)
    (hnorm : normalizeQuery q1 = normalizeQuery q2)
    (hv1 : validateInput cfg q1 top_k = Except.ok ())
    (hv2 : validateInput cfg q2 top_k = Except.ok ())
    (habsent : lookupA (getCacheKey q1 top_k) st.queryCache = none)
    (hroom : st.queryCache.length < cfg.cache_size)
    (hfresh : now2 - now1 < cfg.cache_ttl_seconds) :
    getCacheKey q1 top_k = getCacheKey q2 top_k ∧
    (rag_search cfg retrieve now2
        (rag_search cfg retrieve now1 st q1 top_k).2 q2 top_k).1 =
      (rag_search cfg retrieve now1 st q1 top_k).1 ∧
    (rag_search cfg retrieve now2
        (rag_search cfg retrieve now1 st q1 top_k).2 q2 top_k).2.upstreamCalls =
      st.upstreamCalls + 1 := by
  have hkey : getCacheKey q1 top_k = getCacheKey q2 top_k := by
    unfold getCacheKey
    rw [hnorm]
  obtain ⟨hr1, hup1, htq1, hlook1⟩ :=
    rag_search_miss_spec cfg retrieve now1 st q1 top_k hv1 henable habsent hroom
  have hlook2 : lookupA (getCacheKey q2 top_k)
      (rag_search cfg retrieve now1 st q1 top_k).2.queryCache =
      some ⟨(rag_search cfg retrieve now1 st q1 top_k).1, now1⟩ := by
    rw [← hkey]
    exact hlook1
  obtain ⟨hr2, hup2⟩ :=
    rag_search_hit_spec cfg retrieve now2 (rag_search cfg retrieve now1 st q1 top_k).2
      q2 top_k ⟨(rag_search cfg retrieve now1 st q1 top_k).1, now1⟩ hv2 henable hlook2 hfresh
  exact ⟨hkey, hr2, by rw [hup2, hup1]⟩

/-- Witness for C8: the queries "  Hello " and "hello" with top_k = 5 against
an empty cache share one entry: the second call returns the first call's value
and the upstream pipeline ran exactly once. -/
theorem normalized_query_cache_sharing_witness :
    getCacheKey "  Hello " 5 = getCacheKey "hello" 5 ∧
    (rag_search defaultRAGConfig (fun _ _ => [sampleResult]) 1
        (rag_search defaultRAGConfig (fun _ _ => [sampleResult]) 0 initialRAGState "  Hello " 5).2
        "hello" 5).1 =
      (rag_search defaultRAGConfig (fun _ _ => [sampleResult]) 0 initialRAGState "  Hello " 5).1 ∧
    (rag_search defaultRAGConfig (fun _ _ => [sampleResult]) 1
        (rag_search defaultRAGConfig (fun _ _ => [sampleResult]) 0 initialRAGState "  Hello " 5).2
        "hello" 5).2.upstreamCalls = initialRAGState.upstreamCalls + 1 :=
  normalized_query_cache_sharing defaultRAGConfig (fun _ _ => [sampleResult]) 0 1
    initialRAGState "  Hello " "hello" 5 rfl (by decide) rfl rfl
    rfl (by decide) (by norm_num [defaultRAGConfig])

/-! ## Theorems for claim C9 -/

/-- C9: for every distance in [0,2] the distance-to-similarity conversion equals
clamp((2-distance)/2, 0, 1); it is monotonically decreasing in distance and is
bounded in [0,1]. -/
theorem similarity_conversion_spec :
    (∀ d : ℚ, 0 ≤ d → d ≤ 2 → similarityOfDistance d = specClampSimilarity d) ∧
    (∀ d1 d2 : ℚ, d1 ≤ d2 → similarityOfDistance d2 ≤ similarityOfDistance d1) ∧
    (∀ d : ℚ, 0 ≤ similarityOfDistance d ∧ similarityOfDistance d ≤ 1) := by
  refine ⟨fun d _ _ => rfl, fun d1 d2 h => ?_, fun d => ⟨le_max_left 0 _, ?_⟩⟩
  · unfold similarityOfDistance
    have h2 : (2 - d2) / 2 ≤ (2 - d1) / 2 := by linarith
    exact max_le_max le_rfl (min_le_min le_rfl h2)
  · unfold similarityOfDistance
    have h1 : min 1 ((2 - d) / 2) ≤ 1 := min_le_left 1 _
    exact max_le (by norm_num) h1

/-- Witness for C9: the conversion evaluated at the concrete distance 1/2 gives
3/4, the clamp of the spec agrees, and monotonicity holds between 1/2 and 1. -/
theorem similarity_conversion_spec_witness :
    similarityOfDistance (1/2) = specClampSimilarity (1/2) ∧
    similarityOfDistance 1 ≤ similarityOfDistance (1/2) ∧
    (0 ≤ similarityOfDistance (1/2) ∧ similarityOfDistance (1/2) ≤ 1) :=
  ⟨similarity_conversion_spec.1 (1/2) (by norm_num) (by norm_num),
   similarity_conversion_spec.2.1 (1/2) 1 (by norm_num),
   similarity_conversion_spec.2.2 (1/2)⟩

end ResumeMate
